import Mathlib

/-!
Verification of the controller-spread scheduler plugin
(`pkg/controllerspread/controller_spread.go`).

The Go source is shallowly embedded here: listers are modelled as
functions returning `Except String` values, Kubernetes objects as
structures carrying only the fields the plugin reads, and the `Filter`
method as a pure function from an environment, a context-cancellation
flag, the pod being scheduled and the candidate node's name to an
outcome.  The outcome also records whether the pod lister was consulted,
mirroring whether Go execution reaches the `csf.podLister...List` call.
-/

namespace ControllerSpread

/-- An owner reference on a pod: `metav1.OwnerReference`'s `Kind`, `UID`
and `Name` fields, the only ones the plugin reads. -/
structure OwnerReference where
  kind : String
  uid : String
  name : String
deriving DecidableEq, Repr

/-- The pod phases of `v1.PodPhase`. -/
inductive PodPhase where
  | pending
  | running
  | succeeded
  | failed
  | unknown
deriving DecidableEq, Repr

/-- A pod, carrying exactly the fields the plugin reads: namespace,
name, owner references, `Spec.NodeName` and `Status.Phase`. -/
structure Pod where
  ns : String
  name : String
  ownerReferences : List OwnerReference
  nodeName : String
  phase : PodPhase
deriving DecidableEq, Repr

/-- `ControllerType` from the source: the four recognized kinds. -/
inductive ControllerType where
  | replicaSet
  | statefulSet
  | job
  | cronJob
deriving DecidableEq, Repr

/-- The string value of each `ControllerType` constant
(`ReplicaSetType = "ReplicaSet"`, etc.). -/
def controllerTypeString : ControllerType → String
  | ControllerType.replicaSet => "ReplicaSet"
  | ControllerType.statefulSet => "StatefulSet"
  | ControllerType.job => "Job"
  | ControllerType.cronJob => "CronJob"

/-- `ControllerInfo` from the source. -/
structure ControllerInfo where
  type : ControllerType
  uid : String
  name : String
deriving DecidableEq, Repr

/-- `getControllerInfo` (source lines 112–129): scan the pod's owner
references in order; skip owners with an empty UID or name; return the
first owner whose kind is one of the four recognized kinds; skip
unrecognized kinds.  `none` models the `(ControllerInfo{}, false)`
return. -/
def getControllerInfo : List OwnerReference → Option ControllerInfo
  | [] => none
  | o :: rest =>
    if o.uid = "" ∨ o.name = "" then getControllerInfo rest
    else if o.kind = "ReplicaSet" then
      some ⟨ControllerType.replicaSet, o.uid, o.name⟩
    else if o.kind = "StatefulSet" then
      some ⟨ControllerType.statefulSet, o.uid, o.name⟩
    else if o.kind = "Job" then
      some ⟨ControllerType.job, o.uid, o.name⟩
    else if o.kind = "CronJob" then
      some ⟨ControllerType.cronJob, o.uid, o.name⟩
    else getControllerInfo rest

/-- One step of accumulating base-10 digits, as `strconv.ParseInt` does:
fails on the first non-digit character. -/
def digitsVal : List Char → Nat → Option Nat
  | [], acc => some acc
  | c :: cs, acc =>
    if c.isDigit then digitsVal cs (acc * 10 + (c.toNat - 48)) else none

/-- A non-empty all-digit run parsed as a natural number; `none` on an
empty run or any non-digit. -/
def parseDigits : List Char → Option Nat
  | [] => none
  | c :: cs => digitsVal (c :: cs) 0

/-- The syntax-and-value part of Go's `strconv.ParseInt(s, 10, _)`: an
optional leading sign followed by one or more decimal digits, with no
magnitude restriction.  This is the mathematical base-10 parse; the
32-bit range check of the source's `ParseInt(val, 10, 32)` call is
layered on top in ` strconvParseInt32`. -/
def parseBase10 (s : String) : Option Int :=
  match s.toList with
  | [] => none
  | '+' :: cs => Option.map (fun n => (n : Int)) (parseDigits cs)
  | '-' :: cs => Option.map (fun n => -(n : Int)) (parseDigits cs)
  | cs => Option.map (fun n => (n : Int)) (parseDigits cs)

/-- Go's `strconv.ParseInt(s, 10, 32)`: the base-10 parse succeeds only
when the value also fits a signed 32-bit integer; out-of-range values
yield an error (`ErrRange`), modelled as `none`. -/
def strconvParseInt32 (s : String) : Option Int :=
  match parseBase10 s with
  | some v => if -2147483648 ≤ v ∧ v ≤ 2147483647 then some v else none
  | none => none

/-- `parseMinHostsAnnotation` (source lines 132–137): parse the value as
a 32-bit base-10 integer; keep it when the parse succeeds, the value is
`>= 2` and `<= math.MaxInt32`; otherwise default to 2. -/
def parseMinHostsAnnotation (val : String) : Int :=
  match strconvParseInt32 val with
  | some parsed => if 2 ≤ parsed ∧ parsed ≤ 2147483647 then parsed else 2
  | none => 2

/-- The `min` helper from the source (lines 140–145), on `int32` values
modelled as `Int`. -/
def min (a b : Int) : Int :=
  if a < b then a else b

/-- The annotation key constant `minHostsAnnotationKey`. -/
def minHostsAnnotationKey : String := "controller-spread-scheduler/min-hosts"

/-- Source lines 184, 240–242: `minHostsVal` starts at 2 and is replaced
by ` parseMinHostsAnnotation val` when the key is present in the
controller object's annotation mapping. -/
def minHostsOf (ann : List (String × String)) : Int :=
  match List.lookup minHostsAnnotationKey ann with
  | some val => parseMinHostsAnnotation val
  | none => 2

/-- Source line 244: `requiredHosts := min(desired, minHostsVal)`. -/
def requiredHostsOf (desired : Int) (ann : List (String × String)) : Int :=
  min desired (minHostsOf ann)

/-- `isOwnedByController` (source lines 291–298): some owner reference
has the controller's kind string and its UID; the name plays no part. -/
def isOwnedByController (pod : Pod) (controller : ControllerInfo) : Bool :=
  pod.ownerReferences.any fun o =>
    o.kind == controllerTypeString controller.type && o.uid == controller.uid

/-- Source lines 255–260: the sibling census — pods owned by the
controller whose phase is Running or Pending. -/
def controllerPods (allPods : List Pod) (controller : ControllerInfo) : List Pod :=
  allPods.filter fun p =>
    isOwnedByController p controller &&
      (p.phase == PodPhase.running || p.phase == PodPhase.pending)

/-- Source lines 265–270: the set of distinct non-empty node names among
the sibling pods. -/
def nodeSetOf (allPods : List Pod) (controller : ControllerInfo) : Finset String :=
  (((controllerPods allPods controller).filter fun p => p.nodeName ≠ "").map
    Pod.nodeName).toFinset

/-- The plugin's terminal statuses: `framework.Success`,
`framework.Unschedulable` with its message, `framework.Error` with its
message. -/
inductive Verdict where
  | success
  | unschedulable (reason : String)
  | error (cause : String)
deriving DecidableEq, Repr

/-- Source lines 272–288: `effectiveSpread` is the node-set size, plus
one when the candidate node is not already in the set; reject when it is
below `requiredHosts`, admit otherwise. -/
def admissionDecision (requiredHosts : Int) (nodeSet : Finset String)
    (candidateNode : String) : Verdict :=
  let effectiveSpread : Nat :=
    nodeSet.card + (if candidateNode ∈ nodeSet then 0 else 1)
  if (effectiveSpread : Int) < requiredHosts then
    Verdict.unschedulable
      ("must schedule across at least " ++ toString requiredHosts ++
        " distinct nodes")
  else Verdict.success

/-- A ReplicaSet as the plugin reads it: `Spec.Replicas` (a nullable
`int32`) and the annotation mapping. -/
structure ReplicaSetObj where
  replicas : Option Int
  annotations : List (String × String)
deriving Repr

/-- A StatefulSet as the plugin reads it: `Spec.Replicas` and the
annotation mapping. -/
structure StatefulSetObj where
  replicas : Option Int
  annotations : List (String × String)
deriving Repr

/-- A Job as the plugin reads it: `Spec.Parallelism` and the annotation
mapping. -/
structure JobObj where
  parallelism : Option Int
  annotations : List (String × String)
deriving Repr

/-- A CronJob as the plugin reads it: `Spec.JobTemplate.Spec.Parallelism`
(flattened into one field) and the annotation mapping. -/
structure CronJobObj where
  jobTemplateParallelism : Option Int
  annotations : List (String × String)
deriving Repr

/-- The read-only stores injected into `ControllerSpreadFilter`: the four
controller listers (namespace → name → object or lookup error) and the
pod lister (namespace → pod list or error). -/
structure Env where
  rsLister : String → String → Except String ReplicaSetObj
  stsLister : String → String → Except String StatefulSetObj
  jobLister : String → String → Except String JobObj
  cronJobLister : String → String → Except String CronJobObj
  podLister : String → Except String (List Pod)

/-- The kind dispatch of source lines 187–238: fetch the controller
object by namespace and name from the lister matching the reference's
kind, and project out the kind-specific desired-count field (still
optional — the `default to 1` happens at the use site, as in each Go
branch) together with the object's annotations.  The Go `default`
branch is unreachable because `ControllerInfo.type` is total over the
four kinds. -/
def fetchController (env : Env) (ns : String) (controller : ControllerInfo) :
    Except String (Option Int × List (String × String)) :=
  match controller.type with
  | ControllerType.replicaSet =>
    match env.rsLister ns controller.name with
    | Except.ok rs => Except.ok (rs.replicas, rs.annotations)
    | Except.error e => Except.error e
  | ControllerType.statefulSet =>
    match env.stsLister ns controller.name with
    | Except.ok sts => Except.ok (sts.replicas, sts.annotations)
    | Except.error e => Except.error e
  | ControllerType.job =>
    match env.jobLister ns controller.name with
    | Except.ok job => Except.ok (job.parallelism, job.annotations)
    | Except.error e => Except.error e
  | ControllerType.cronJob =>
    match env.cronJobLister ns controller.name with
    | Except.ok cj => Except.ok (cj.jobTemplateParallelism, cj.annotations)
    | Except.error e => Except.error e

/-- The `Filter` outcome: the returned status, plus a flag recording
whether execution reached the pod-lister call at source line 249. -/
structure FilterOutcome where
  status : Verdict
  podListed : Bool
deriving DecidableEq, Repr

/-- `Filter` (source lines 177–289).  `ctxCancelled` models the state of
the `ctx` argument; the Go body never reads `ctx`, and accordingly the
parameter is unused.  Lookup failures on the controller admit
(fail-open); a pod-list failure returns Error (fail-closed); `desired <=
1` admits before the pod lister is consulted; a sibling census of at
most one pod admits; otherwise the decision of ` admissionDecision` is
returned. -/
def Filter (env : Env) (ctxCancelled : Bool) (pod : Pod)
    (candidateNode : String) : FilterOutcome :=
  match getControllerInfo pod.ownerReferences with
  | none => ⟨Verdict.success, false⟩
  | some controller =>
    match fetchController env pod.ns controller with
    | Except.error _ => ⟨Verdict.success, false⟩
    | Except.ok (countField, annotations) =>
      let desired : Int := countField.getD 1
      let requiredHosts : Int := requiredHostsOf desired annotations
      if desired ≤ 1 then ⟨Verdict.success, false⟩
      else
        match env.podLister pod.ns with
        | Except.error e =>
          ⟨Verdict.error ("error listing pods: " ++ e), true⟩
        | Except.ok allPods =>
          if (controllerPods allPods controller).length ≤ 1 then
            ⟨Verdict.success, true⟩
          else
            ⟨ admissionDecision requiredHosts (nodeSetOf allPods controller)
                candidateNode,
              true⟩

/-- The spec's reading of the override: the base-10 parsed value of the
min-hosts annotation when that parse succeeds and the value is at least
2, with no upper bound on the accepted value; 2 when the annotation is
absent, unparseable, or below 2.  Written to the spec's words, to be
compared with the behaviour of ` requiredHostsOf`. -/
def overrideSpec (ann : List (String × String)) : Int :=
  match List.lookup minHostsAnnotationKey ann with
  | some val =>
    match parseBase10 val with
    | some p => if 2 ≤ p then p else 2
    | none => 2
  | none => 2

/-- The override as the code actually computes it, phrased over the
unbounded base-10 parse: accepted only when the value is at least 2 and
fits a signed 32-bit integer (at most 2147483647); otherwise 2. -/
def overrideAmended (ann : List (String × String)) : Int :=
  match List.lookup minHostsAnnotationKey ann with
  | some val =>
    match parseBase10 val with
    | some p => if 2 ≤ p ∧ p ≤ 2147483647 then p else 2
    | none => 2
  | none => 2

/-- The spec's eligibility rule for ControllerResolver, per owner
reference: a recognized kind with non-empty UID and name, yielding the
corresponding `ControllerInfo`. -/
def eligibleOwner (o : OwnerReference) : Option ControllerInfo :=
  if o.uid = "" ∨ o.name = "" then none
  else if o.kind = "ReplicaSet" then
    some ⟨ControllerType.replicaSet, o.uid, o.name⟩
  else if o.kind = "StatefulSet" then
    some ⟨ControllerType.statefulSet, o.uid, o.name⟩
  else if o.kind = "Job" then
    some ⟨ControllerType.job, o.uid, o.name⟩
  else if o.kind = "CronJob" then
    some ⟨ControllerType.cronJob, o.uid, o.name⟩
  else none

/-- Sample pod owned by a ReplicaSet, used to instantiate theorems. -/
def podA : Pod :=
  { ns := "default", name := "p1",
    ownerReferences := [⟨"ReplicaSet", "u1", "rs1"⟩],
    nodeName := "", phase := PodPhase.pending }

/-- Sample pod owned by a StatefulSet. -/
def podSts : Pod :=
  { ns := "default", name := "p2",
    ownerReferences := [⟨"StatefulSet", "u2", "sts1"⟩],
    nodeName := "", phase := PodPhase.pending }

/-- Sample pod with no owner references. -/
def podNoOwner : Pod :=
  { ns := "default", name := "p3", ownerReferences := [],
    nodeName := "", phase := PodPhase.pending }

/-- A running sibling of `podA` already placed on node `n1`. -/
def sibA : Pod :=
  { ns := "default", name := "s1",
    ownerReferences := [⟨"ReplicaSet", "u1", "rs1"⟩],
    nodeName := "n1", phase := PodPhase.running }

/-- Sample environment: the ReplicaSet `rs1` exists with one desired
replica; the StatefulSet lister fails; the pod lister fails. -/
def envA : Env :=
  { rsLister := fun _ _ => Except.ok ⟨some 1, []⟩,
    stsLister := fun _ _ => Except.error "statefulset not found",
    jobLister := fun _ _ => Except.error "job not found",
    cronJobLister := fun _ _ => Except.error "cronjob not found",
    podLister := fun _ => Except.error "pod store unavailable" }

/-- Sample environment: the ReplicaSet `rs1` wants two replicas but the
pod lister fails. -/
def envB : Env :=
  { rsLister := fun _ _ => Except.ok ⟨some 2, []⟩,
    stsLister := fun _ _ => Except.error "statefulset not found",
    jobLister := fun _ _ => Except.error "job not found",
    cronJobLister := fun _ _ => Except.error "cronjob not found",
    podLister := fun _ => Except.error "etcd timeout" }

/-- Sample environment: the ReplicaSet `rs1` wants three replicas and the
pod lister returns exactly one sibling. -/
def envC : Env :=
  { rsLister := fun _ _ => Except.ok ⟨some 3, []⟩,
    stsLister := fun _ _ => Except.error "statefulset not found",
    jobLister := fun _ _ => Except.error "job not found",
    cronJobLister := fun _ _ => Except.error "cronjob not found",
    podLister := fun _ => Except.ok [sibA] }

/-- Sample environment: the ReplicaSet `rs1` wants three replicas and the
pod lister returns the candidate pod itself together with a placed
sibling. -/
def envD : Env :=
  { rsLister := fun _ _ => Except.ok ⟨some 3, []⟩,
    stsLister := fun _ _ => Except.error "statefulset not found",
    jobLister := fun _ _ => Except.error "job not found",
    cronJobLister := fun _ _ => Except.error "cronjob not found",
    podLister := fun _ => Except.ok [podA, sibA] }

/-- C1: for every placement snapshot, requiredHosts value and candidate
node, the decision computes `effectiveSpread` as the snapshot size plus
one exactly when the candidate is not already in the snapshot, and the
verdict is Reject — with `requiredHosts` in the reason — precisely when
`effectiveSpread < requiredHosts`, and Admit otherwise. -/
theorem admissionDecision_characterization (required : Int)
    (snapshot : Finset String) (candidate : String) :
    ( admissionDecision required snapshot candidate =
        Verdict.unschedulable
          ("must schedule across at least " ++ toString required ++
            " distinct nodes")
      ↔ ((snapshot.card + (if candidate ∈ snapshot then 0 else 1) : Nat) : Int)
          < required)
    ∧ ( admissionDecision required snapshot candidate = Verdict.success
      ↔ ¬ ((snapshot.card + (if candidate ∈ snapshot then 0 else 1) : Nat) : Int)
          < required) := by
  unfold admissionDecision
  constructor <;> split <;> simp_all

/-- The code's annotation parse, phrased over the unbounded base-10
parse: the 32-bit range check folds into the acceptance condition. -/
theorem parseMinHosts_eq_capped (val : String) :
    parseMinHostsAnnotation val =
      (match parseBase10 val with
        | some p => if 2 ≤ p ∧ p ≤ 2147483647 then p else 2
        | none => 2) := by
  cases hp : parseBase10 val with
  | none => simp [ parseMinHostsAnnotation, strconvParseInt32, hp]
  | some p =>
    by_cases h1 : -2147483648 ≤ p ∧ p ≤ 2147483647
    · simp [ parseMinHostsAnnotation, strconvParseInt32, hp, h1]
    · simp only [ parseMinHostsAnnotation, strconvParseInt32, hp, if_neg h1]
      have h2 : ¬ (2 ≤ p ∧ p ≤ 2147483647) := by omega
      rw [if_neg h2]

/-- The code's effective min-hosts value coincides with the amended
override formula. -/
theorem minHostsOf_eq_overrideAmended (ann : List (String × String)) :
    minHostsOf ann = overrideAmended ann := by
  unfold minHostsOf overrideAmended
  cases List.lookup minHostsAnnotationKey ann with
  | none => rfl
  | some val => exact parseMinHosts_eq_capped val

/-- C2 (counterexample): the claim that the override has no upper bound
fails.  With `desiredCount = 3` and the min-hosts annotation set to
`"2147483648"` (one past `math.MaxInt32`), the spec's formula yields
`min 3 2147483648 = 3`, but the code's 32-bit parse fails, falls back to
the default 2, and produces `requiredHosts = 2`. -/
theorem requiredHosts_unbounded_override_counterexample :
    requiredHostsOf 3
        [("controller-spread-scheduler/min-hosts", "2147483648")] ≠
      min 3
        ( overrideSpec
          [("controller-spread-scheduler/min-hosts", "2147483648")]) := by
  decide

/-- C2 (amended): `requiredHosts = min(desiredCount, override)` where the
override is the base-10 parsed annotation value when the parse succeeds,
the value is at least 2 and it fits a signed 32-bit integer (at most
2147483647); the override is 2 when the annotation is absent,
unparseable, out of 32-bit range, or below 2. -/
theorem requiredHosts_eq_min_desired_overrideAmended (desired : Int)
    (ann : List (String × String)) :
    requiredHostsOf desired ann = min desired ( overrideAmended ann) := by
  unfold requiredHostsOf
  rw [minHostsOf_eq_overrideAmended]

/-- C3: when the resolved controller's desired count (defaulting to 1 if
the kind-specific field is unset) is at most 1, the verdict is Admit
regardless of the annotation override and of existing placement, and the
pod lister is never consulted. -/
theorem desired_le_one_admits_without_podlist (env : Env) (c : Bool)
    (pod : Pod) (node : String) (ctrl : ControllerInfo) (cnt : Option Int)
    (ann : List (String × String))
    (h1 : getControllerInfo pod.ownerReferences = some ctrl)
    (h2 : fetchController env pod.ns ctrl = Except.ok (cnt, ann))
    (h3 : cnt.getD 1 ≤ 1) :
    Filter env c pod node = ⟨Verdict.success, false⟩ := by
  simp [Filter, h1, h2, h3]

/-- C3 witness: a ReplicaSet with one desired replica admits without a
pod list even though the pod store is unavailable. -/
theorem desired_le_one_admits_without_podlist_witness :
    Filter envA false podA "n1" = ⟨Verdict.success, false⟩ :=
  desired_le_one_admits_without_podlist envA false podA "n1"
    ⟨ControllerType.replicaSet, "u1", "rs1"⟩ (some 1) [] (by decide) rfl
    (by decide)

/-- C4: a failing controller-store lookup (object not found or any store
error) yields Admit, regardless of any other input. -/
theorem controller_lookup_error_admits (env : Env) (c : Bool) (pod : Pod)
    (node : String) (ctrl : ControllerInfo) (e : String)
    (h1 : getControllerInfo pod.ownerReferences = some ctrl)
    (h2 : fetchController env pod.ns ctrl = Except.error e) :
    (Filter env c pod node).status = Verdict.success := by
  simp [Filter, h1, h2]

/-- C4 witness: the StatefulSet lookup fails and the pod admits. -/
theorem controller_lookup_error_admits_witness :
    (Filter envA false podSts "n1").status = Verdict.success :=
  controller_lookup_error_admits envA false podSts "n1"
    ⟨ControllerType.statefulSet, "u2", "sts1"⟩ "statefulset not found"
    (by decide) rfl

/-- C5: once the census is reached (controller resolved, lookup
succeeded, desired count at least 2), a failing pod list yields the
Error verdict with a non-empty cause — never Admit or Reject. -/
theorem podlist_error_fails_closed (env : Env) (c : Bool) (pod : Pod)
    (node : String) (ctrl : ControllerInfo) (cnt : Option Int)
    (ann : List (String × String)) (e : String)
    (h1 : getControllerInfo pod.ownerReferences = some ctrl)
    (h2 : fetchController env pod.ns ctrl = Except.ok (cnt, ann))
    (h3 : 2 ≤ cnt.getD 1)
    (h4 : env.podLister pod.ns = Except.error e) :
    (Filter env c pod node).status = Verdict.error ("error listing pods: " ++ e)
      ∧ "error listing pods: " ++ e ≠ "" := by
  constructor
  · have hd : ¬ (cnt.getD 1 ≤ 1) := by omega
    simp [Filter, h1, h2, h4, hd]
  · intro hcontr
    have hl := congrArg String.length hcontr
    rw [String.length_append] at hl
    have h20 : ("error listing pods: " : String).length = 20 := rfl
    have h0 : ("" : String).length = 0 := rfl
    omega

/-- C5 witness: the pod store times out under a two-replica ReplicaSet
and the verdict is the Error status with its populated cause. -/
theorem podlist_error_fails_closed_witness :
    (Filter envB false podA "n1").status =
        Verdict.error ("error listing pods: " ++ "etcd timeout")
      ∧ "error listing pods: " ++ "etcd timeout" ≠ "" :=
  podlist_error_fails_closed envB false podA "n1"
    ⟨ControllerType.replicaSet, "u1", "rs1"⟩ (some 2) [] "etcd timeout"
    (by decide) rfl (by decide) rfl

/-- C6: a pod is a sibling exactly when some owner reference carries the
controller's kind and UID — the owner's name is ignored — and its phase
is Pending or Running; and the placement snapshot is exactly the set of
distinct non-empty node names among the siblings, so unscheduled
siblings never enter the node set. -/
theorem sibling_census_characterization (pods : List Pod)
    (ctrl : ControllerInfo) :
    (∀ p, p ∈ controllerPods pods ctrl ↔
        p ∈ pods ∧
          (∃ o ∈ p.ownerReferences,
            o.kind = controllerTypeString ctrl.type ∧ o.uid = ctrl.uid) ∧
          (p.phase = PodPhase.pending ∨ p.phase = PodPhase.running)) ∧
    (∀ n, n ∈ nodeSetOf pods ctrl ↔
        n ≠ "" ∧ ∃ p ∈ controllerPods pods ctrl, p.nodeName = n) := by
  constructor
  · intro p
    simp only [controllerPods, isOwnedByController, List.mem_filter,
      List.any_eq_true, Bool.and_eq_true, Bool.or_eq_true, beq_iff_eq]
    tauto
  · intro n
    simp only [nodeSetOf, List.mem_toFinset, List.mem_map, List.mem_filter,
      decide_eq_true_eq]
    constructor
    · rintro ⟨p, ⟨hp, hne⟩, rfl⟩
      exact ⟨hne, p, hp, rfl⟩
    · rintro ⟨hne, p, hp, rfl⟩
      exact ⟨p, ⟨hp, hne⟩, rfl⟩

/-- C7: the controller resolver returns the first owner reference, in
list order, of a recognized kind with non-empty UID and name, skipping
the rest; and when no such owner exists the filter admits without
consulting any store. -/
theorem controller_resolver_first_eligible :
    (∀ refs : List OwnerReference,
        getControllerInfo refs = refs.findSome? eligibleOwner) ∧
    (∀ (env : Env) (c : Bool) (pod : Pod) (node : String),
        getControllerInfo pod.ownerReferences = none →
          Filter env c pod node = ⟨Verdict.success, false⟩) := by
  constructor
  · intro refs
    induction refs with
    | nil => rfl
    | cons o rest ih =>
      rw [List.findSome?_cons]
      by_cases he : o.uid = "" ∨ o.name = ""
      · simp [getControllerInfo, eligibleOwner, he, ih]
      · by_cases h1 : o.kind = "ReplicaSet"
        · simp [getControllerInfo, eligibleOwner, he, h1]
        · by_cases h2 : o.kind = "StatefulSet"
          · simp [getControllerInfo, eligibleOwner, he, h1, h2]
          · by_cases h3 : o.kind = "Job"
            · simp [getControllerInfo, eligibleOwner, he, h1, h2, h3]
            · by_cases h4 : o.kind = "CronJob"
              · simp [getControllerInfo, eligibleOwner, he, h1, h2, h3, h4]
              · simp [getControllerInfo, eligibleOwner, he, h1, h2, h3, h4, ih]
  · intro env c pod node h
    simp [Filter, h]

/-- C7 witness: a pod with no owner references admits. -/
theorem controller_resolver_first_eligible_witness :
    Filter envA false podNoOwner "n1" = ⟨Verdict.success, false⟩ :=
  controller_resolver_first_eligible.2 envA false podNoOwner "n1" (by decide)

/-- C8: when the pod list succeeds and the census holds at most one
phase-qualifying sibling of the resolved controller, the verdict is
Admit, whatever the required host count and the candidate node. -/
theorem few_siblings_admit (env : Env) (c : Bool) (pod : Pod)
    (node : String) (ctrl : ControllerInfo) (pods : List Pod)
    (h1 : getControllerInfo pod.ownerReferences = some ctrl)
    (h2 : env.podLister pod.ns = Except.ok pods)
    (h3 : (controllerPods pods ctrl).length ≤ 1) :
    (Filter env c pod node).status = Verdict.success := by
  cases hf : fetchController env pod.ns ctrl with
  | error e => simp [Filter, h1, hf]
  | ok pair =>
    obtain ⟨cnt, ann⟩ := pair
    by_cases hd : cnt.getD 1 ≤ 1
    · simp [Filter, h1, hf, hd]
    · simp [Filter, h1, hf, hd, h2, h3]

/-- C8 witness: one running sibling under a three-replica ReplicaSet
still admits. -/
theorem few_siblings_admit_witness :
    (Filter envC false podA "n1").status = Verdict.success :=
  few_siblings_admit envC false podA "n1"
    ⟨ControllerType.replicaSet, "u1", "rs1"⟩ [sibA] (by decide) rfl (by decide)

/-- C9 (counterexample): with the context already cancelled, the filter
does not return Error: on a three-replica ReplicaSet with the candidate
pod and one placed sibling in the store, the full pipeline runs (the
pod lister is consulted) and the pod admits on node `n2`. -/
theorem cancelled_context_not_error_counterexample :
    Filter envD true podA "n2" = ⟨Verdict.success, true⟩ := by
  decide

/-- C9 (amended): the filter never inspects the context; its outcome is
the same whether or not the invocation's context is cancelled, and the
store reads proceed regardless. -/
theorem filter_ignores_context (env : Env) (c1 c2 : Bool) (pod : Pod)
    (node : String) :
    Filter env c1 pod node = Filter env c2 pod node := rfl

/-- C10: the census does not exclude the pod being scheduled: any pod in
the namespace listing owned by the resolved controller (same kind and
UID, whatever its name — including the candidate pod itself) in phase
Pending or Running is a member of the sibling list used for the
at-most-one-sibling short-circuit, and its node name, when non-empty,
enters the placement set. -/
theorem census_includes_scheduled_pod (pods : List Pod)
    (ctrl : ControllerInfo) (p : Pod)
    (h1 : p ∈ pods)
    (h2 : isOwnedByController p ctrl = true)
    (h3 : p.phase = PodPhase.pending ∨ p.phase = PodPhase.running) :
    p ∈ controllerPods pods ctrl ∧
      (p.nodeName ≠ "" → p.nodeName ∈ nodeSetOf pods ctrl) := by
  have hmem : p ∈ controllerPods pods ctrl := by
    simp only [controllerPods, List.mem_filter]
    refine ⟨h1, ?_⟩
    rcases h3 with h | h <;> simp [h2, h]
  refine ⟨hmem, fun hne => ?_⟩
  simp only [nodeSetOf, List.mem_toFinset, List.mem_map, List.mem_filter,
    decide_eq_true_eq]
  exact ⟨p, ⟨hmem, hne⟩, rfl⟩

/-- C10 witness: the candidate pod itself, Pending and unscheduled, is
counted among its controller's siblings. -/
theorem census_includes_scheduled_pod_witness :
    podA ∈ controllerPods [podA, sibA]
        ⟨ControllerType.replicaSet, "u1", "rs1"⟩ ∧
      (podA.nodeName ≠ "" → podA.nodeName ∈
        nodeSetOf [podA, sibA] ⟨ControllerType.replicaSet, "u1", "rs1"⟩) :=
  census_includes_scheduled_pod [podA, sibA]
    ⟨ControllerType.replicaSet, "u1", "rs1"⟩ podA (by decide) (by decide)
    (by decide)

end ControllerSpread
